import Mathlib

/-!
Verification of the defect-data ingestion and view-model derivation layer of
the RoadDoctor dashboard (`app.js`).  The JavaScript source is shallowly
embedded: numbers are modelled as `ℚ` (exact rationals; IEEE-754 rounding of
in-range decimal literals is not modelled), JS `NaN`/`Infinity` outcomes are
modelled by the `JFloat` type, JSON payloads by the `Json` inductive, and the
process-wide mutable state by explicit state-passing records.
-/

namespace RoadDoctor

/-! ## JS number results

A JS `number` arising in this code base is either `NaN`, an infinity, or a
finite value (modelled exactly as a rational). -/

/-- JS `String.prototype.trim`: strip leading and trailing whitespace.
(Defined structurally over the character list so that concrete runs reduce.) -/
def jsTrim (s : String) : String :=
  ⟨((s.data.dropWhile Char.isWhitespace).reverse.dropWhile Char.isWhitespace).reverse⟩

/-- JS `String.prototype.split` with a single-character separator:
`""` splits to `[""]`, separators at the ends produce empty fields. -/
def splitOnCharAux (sep : Char) : List Char → String → List String
  | [], current => [current]
  | c :: rest, current =>
    if c = sep then current :: splitOnCharAux sep rest ""
    else splitOnCharAux sep rest (current.push c)

def splitOnChar (s : String) (sep : Char) : List String :=
  splitOnCharAux sep s.data ""

inductive JFloat where
  | nan
  | inf (neg : Bool)
  | fin (q : ℚ)
deriving DecidableEq, Repr

def JFloat.isNaN : JFloat → Bool
  | .nan => true
  | _ => false

def JFloat.isFinite : JFloat → Bool
  | .fin _ => true
  | _ => false

/-- JS `x >= c` for a number `x` and a finite numeric literal `c`:
false when `x` is `NaN`, true for `+Infinity`, false for `-Infinity`. -/
def jsGE (x : JFloat) (c : ℚ) : Bool :=
  match x with
  | .nan => false
  | .inf neg => !neg
  | .fin q => decide (c ≤ q)

/-- JS `x || 0` applied to a number: `NaN` and `0` are falsy (both yield `0`),
every other number (including infinities) is kept. -/
def jfOr0 (x : JFloat) : JFloat :=
  match x with
  | .nan => .fin 0
  | .inf neg => .inf neg
  | .fin q => if q = 0 then .fin 0 else .fin q

def digitsToNat (ds : List Char) : Nat :=
  ds.foldl (fun n c => n * 10 + (c.toNat - '0'.toNat)) 0

/-- Longest-prefix parse of an unsigned ECMAScript decimal literal
(`digits [. digits] [e|E [+|-] digits]`), returning the exact value and the
unconsumed remainder, or `none` when no digit is present.  Hex/octal/binary
literals are not modelled (never fed by this code base). -/
def parseDecimalPrefix (cs : List Char) : Option (ℚ × List Char) :=
  let intPart := cs.span Char.isDigit
  let intDs := intPart.1
  let fracPart : List Char × List Char :=
    match intPart.2 with
    | '.' :: t => t.span Char.isDigit
    | _ => ([], intPart.2)
  let fracDs := fracPart.1
  let r2 := fracPart.2
  if intDs.isEmpty ∧ fracDs.isEmpty then none
  else
    let base : ℚ :=
      (digitsToNat intDs : ℚ) + (digitsToNat fracDs : ℚ) / (10 : ℚ) ^ fracDs.length
    match r2 with
    | c :: t =>
      if c = 'e' ∨ c = 'E' then
        let signed : ℤ × List Char :=
          match t with
          | '+' :: u => (1, u)
          | '-' :: u => (-1, u)
          | _ => (1, t)
        let expPart := signed.2.span Char.isDigit
        if expPart.1.isEmpty then some (base, r2)
        else some (base * (10 : ℚ) ^ (signed.1 * (digitsToNat expPart.1 : ℤ)), expPart.2)
      else some (base, r2)
    | [] => some (base, [])

/-- ECMAScript `parseFloat` on a string: skip leading whitespace, optional
sign, then either the `Infinity` literal or the longest decimal-literal
prefix; `NaN` when nothing parses. -/
def jsParseFloat (s : String) : JFloat :=
  let cs := s.data.dropWhile Char.isWhitespace
  let signed : Bool × List Char :=
    match cs with
    | '-' :: t => (true, t)
    | '+' :: t => (false, t)
    | _ => (false, cs)
  if "Infinity".data.isPrefixOf signed.2 then .inf signed.1
  else
    match parseDecimalPrefix signed.2 with
    | some p => .fin (if signed.1 then -p.1 else p.1)
    | none => .nan

/-- ECMAScript `ToNumber` on a string (used by the bare `d.severity >= 7`
comparison): trimmed empty string is `0`, otherwise the whole trimmed string
must be a signed decimal literal or `Infinity`; anything else is `NaN`.
Hex/octal/binary literals are not modelled. -/
def strToNumber (s : String) : JFloat :=
  let t := jsTrim s
  if t = "" then .fin 0
  else
    let signed : Bool × List Char :=
      match t.data with
      | '-' :: r => (true, r)
      | '+' :: r => (false, r)
      | _ => (false, t.data)
    if signed.2 = "Infinity".data then .inf signed.1
    else
      match parseDecimalPrefix signed.2 with
      | some (q, []) => .fin (if signed.1 then -q else q)
      | _ => .nan

/-! ## JSON values -/

inductive Json where
  | null
  | bool (b : Bool)
  | num (q : ℚ)
  | str (s : String)
  | arr (elems : List Json)
  | obj (fields : List (String × Json))
deriving Repr

/-- JS property read `j[k]`: `none` models `undefined`.  (Reads on `num`,
`str` and `arr` values of the keys used here yield `undefined`; reads on
`null` would throw and are never reached in the modelled paths.) -/
def getField (j : Json) (k : String) : Option Json :=
  match j with
  | .obj fields => (fields.find? (fun p => p.1 == k)).map (fun p => p.2)
  | _ => none

/-- JS truthiness of a defined value. -/
def jsTruthy (j : Json) : Bool :=
  match j with
  | .null => false
  | .bool b => b
  | .num q => decide (q ≠ 0)
  | .str s => decide (s ≠ "")
  | .arr _ => true
  | .obj _ => true

/-- JS `a || b` where `a` may be `undefined` (`none`). -/
def jsOr (a : Option Json) (b : Json) : Json :=
  match a with
  | some v => if jsTruthy v then v else b
  | none => b

/-- The numeric value of `o || 0` for a field that the data contract
guarantees to be a number when present (non-numeric JSON values are not
modelled here and fall back to `0`). -/
def jsNumOr0 (o : Option Json) : ℚ :=
  match o with
  | some (.num q) => q
  | _ => 0

/-- JS `o >= c` where `o` reads a JSON field expected to be numeric:
`undefined >= c` is false (`NaN` comparison). -/
def jsonGE (o : Option Json) (c : ℚ) : Bool :=
  match o with
  | some (.num q) => decide (c ≤ q)
  | _ => false

/-! ## CSV parser (`parseCSV`, the quote-aware variant of `app.js`)

A parsed row is the object built by `headers.forEach((header, i) => obj[header]
= values[i] || '')`: an insertion-ordered string map. -/

def Row := List (String × String)
deriving DecidableEq, Repr

/-- JS property read `row[k]`; `none` models `undefined`. -/
def rowGet (r : Row) (k : String) : Option String :=
  (List.find? (fun p => p.1 == k) r).map (fun p => p.2)

/-- JS property write `obj[k] = v` (overwrites an existing key in place,
otherwise appends in insertion order). -/
def objSet (r : Row) (k : String) (v : String) : Row :=
  match r with
  | [] => [(k, v)]
  | (k1, v1) :: rest => if k1 = k then (k, v) :: rest else (k1, v1) :: objSet rest k v

/-- The character loop of `parseCSV` over one data line: a comma inside an
open double quote is field content, a doubled quote inside quotes is an
escaped literal quote, and any other quote toggles the quoted state; on an
unquoted comma the trimmed field is pushed. -/
def parseFields : List Char → Bool → String → List String → List String
  | [], _, current, values => values ++ [jsTrim current]
  | '"' :: '"' :: rest, true, current, values =>
    parseFields rest true (current.push '"') values
  | '"' :: rest, inQuotes, current, values =>
    parseFields rest (!inQuotes) current values
  | ',' :: rest, false, current, values =>
    parseFields rest false "" (values ++ [jsTrim current])
  | c :: rest, inQuotes, current, values =>
    parseFields rest inQuotes (current.push c) values

/-- `parseCSV` of `app.js`: trim the text, split on line feeds, take the first
line as (trimmed) headers, parse each remaining line with `parseFields`, zip
values to headers positionally (missing trailing values become the empty
string), and drop rows whose first-column value is empty. -/
def parseCSV (text : String) : List Row :=
  match splitOnChar (jsTrim text) '\n' with
  | [] => []
  | headerLine :: dataLines =>
    let headers := (splitOnChar headerLine ',').map jsTrim
    (dataLines.map (fun line =>
        let values := parseFields line.data false "" []
        headers.enum.foldl (fun obj p => objSet obj p.2 ((values.get? p.1).getD "")) []))
      |>.filter (fun row =>
        match headers.head? with
        | some h0 =>
          match rowGet row h0 with
          | some s => s ≠ ""
          | none => false
        | none => false)

/-! ## In-memory defect records

`defectsData` holds the rows produced by `parseCSV` (string-valued fields)
and, after the upload-simulation flow, the synthesized object literal of
`confirmLocation` (number-valued fields). -/

structure UploadedDefect where
  lat : ℚ
  lon : ℚ
  defect_type : Option String
  severity : ℚ
  confidence : ℚ
  image_path : String
  street_name : String
  district : String
deriving DecidableEq, Repr

inductive DefectEntry where
  | fromCsv (row : Row)
  | uploaded (d : UploadedDefect)
deriving DecidableEq, Repr

/-- `parseFloat(defect.lat)`: a CSV row gives a string (possibly absent,
i.e. `undefined`, which parses to `NaN`); an uploaded record stores a finite
number, and `parseFloat` round-trips finite numbers. -/
def parseFloatField (o : Option String) : JFloat :=
  match o with
  | some s => jsParseFloat s
  | none => .nan

def entryLat : DefectEntry → JFloat
  | .fromCsv r => parseFloatField (rowGet r "lat")
  | .uploaded u => .fin u.lat

def entryLon : DefectEntry → JFloat
  | .fromCsv r => parseFloatField (rowGet r "lon")
  | .uploaded u => .fin u.lon

/-- `parseFloat(defect.severity)` (used by `createMarkers` and
`showCriticalDefects`). -/
def entrySeverityPF : DefectEntry → JFloat
  | .fromCsv r => parseFloatField (rowGet r "severity")
  | .uploaded u => .fin u.severity

/-- `d.severity >= 7` with JS coercion (`ToNumber`), as written in the second
`updateStats` declaration. -/
def entrySeverityTN : DefectEntry → JFloat
  | .fromCsv r =>
    match rowGet r "severity" with
    | some s => strToNumber s
    | none => .nan
  | .uploaded u => .fin u.severity

def entryType : DefectEntry → Option String
  | .fromCsv r => rowGet r "defect_type"
  | .uploaded u => u.defect_type

/-! ## View-model derivers -/

/-- One circle marker on the map.  Colors, popup markup and the randomized
display-only repair cost are presentation details outside this model. -/
structure Marker where
  lat : JFloat
  lon : JFloat
  severity : JFloat
deriving DecidableEq, Repr

def markerOf (d : DefectEntry) : Marker :=
  { lat := entryLat d, lon := entryLon d, severity := jfOr0 (entrySeverityPF d) }

/-- `createMarkers`: one marker per defect, skipping records whose parsed
latitude or longitude is `NaN`. -/
def createMarkers (ds : List DefectEntry) : List Marker :=
  ds.filterMap (fun d =>
    if (entryLat d).isNaN || (entryLon d).isNaN then none else some (markerOf d))

/-- The `severity >= 7` filter of `showCriticalDefects` (line
`defectsData.filter(d => parseFloat(d.severity) >= 7)`). -/
def criticalFilter (ds : List DefectEntry) : List DefectEntry :=
  ds.filter (fun d => jsGE (entrySeverityPF d) 7)

def criticalMarkerOf (d : DefectEntry) : Marker :=
  { lat := entryLat d, lon := entryLon d, severity := entrySeverityPF d }

/-- The markers placed on the critical layer by `showCriticalDefects`:
the severity-filtered records, skipping `NaN` coordinates.  The pulse-timer
animation is a decorative effect outside this model. -/
def showCriticalDefectsMarkers (ds : List DefectEntry) : List Marker :=
  (criticalFilter ds).filterMap (fun d =>
    if (entryLat d).isNaN || (entryLon d).isNaN then none else some (criticalMarkerOf d))

/-- Insertion-ordered per-category counting, as accumulation into a JS object
keyed by category (`defectCounts[type] = (defectCounts[type] || 0) + 1`). -/
def bumpCount : List (String × Nat) → String → List (String × Nat)
  | [], t => [(t, 1)]
  | (k, n) :: rest, t => if k = t then (k, n + 1) :: rest else (k, n) :: bumpCount rest t

/-- The chart data of `createDefectChart`: counts per `defect_type`, with
empty or missing types bucketed as `unknown`. -/
def defectCounts (ds : List DefectEntry) : List (String × Nat) :=
  ds.foldl (fun acc d =>
    let t :=
      match entryType d with
      | some s => if s ≠ "" then s else "unknown"
      | none => "unknown"
    bumpCount acc t) []

/-- `road.defect_count || road.total_defects || 0` in `createWorstRoadsList`. -/
def displayedDefectCount (road : Json) : Json :=
  jsOr (getField road "defect_count") (jsOr (getField road "total_defects") (Json.num 0))

/-- One rendered sidebar entry of `createWorstRoadsList` (display-only string
formatting of severity and priority is omitted). -/
structure RoadItem where
  rankDisplay : Json
  streetName : Option Json
  defectCountDisplay : Json
  priorityClass : String
deriving Repr

def renderRoadItem (index : Nat) (road : Json) : RoadItem :=
  { rankDisplay := jsOr (getField road "rank") (Json.num (index + 1 : ℕ)),
    streetName := getField road "street_name",
    defectCountDisplay := displayedDefectCount road,
    priorityClass :=
      if jsonGE (getField road "priority_score") 8 then "critical"
      else if jsonGE (getField road "priority_score") 6 then "high" else "medium" }

/-- `createWorstRoadsList`: the first 10 entries of the already-ranked
sequence, in given order.  (`slice` on a non-array wrapper is never reached
with the contract payloads; modelled as the empty list.) -/
def createWorstRoadsList (roads : Json) : List RoadItem :=
  let xs : List Json :=
    match roads with
    | .arr elems => elems
    | _ => []
  (xs.take 10).enum.map (fun p => renderRoadItem p.1 p.2)

/-- `heatmapJson.heatmap_data || heatmapJson` (data loader, heatmap step). -/
def extractHeatmapData (j : Json) : Json :=
  jsOr (getField j "heatmap_data") j

/-- Point normalization inside `createHeatmap`: an array element is kept as
is, any other element is rebuilt as `[point.lat, point.lon, point.intensity]`. -/
def normalizeHeatPoint (p : Json) : Json :=
  match p with
  | .arr xs => .arr xs
  | _ =>
    .arr [(getField p "lat").getD .null, (getField p "lon").getD .null,
          (getField p "intensity").getD .null]

/-- The point list handed to the heat layer by `createHeatmap`; `none` models
the `TypeError` thrown when the payload is not an array. -/
def createHeatmapPoints (heatmapData : Json) : Option (List Json) :=
  match heatmapData with
  | .arr xs => some (xs.map normalizeHeatPoint)
  | _ => none

/-! ## Dashboard statistics -/

/-- The `textContent` of the four dashboard cells; `none` means the script has
not written the cell. -/
structure Dashboard where
  totalDefects : Option String
  criticalDefects : Option String
  roadQuality : Option String
  repairCost : Option String
deriving DecidableEq, Repr

def emptyDashboard : Dashboard :=
  { totalDefects := none, criticalDefects := none, roadQuality := none, repairCost := none }

/-- JS `Math.round`: round half toward positive infinity. -/
def jsRound (q : ℚ) : ℤ := ⌊q + 1 / 2⌋

/-- `Number` to string for the integral values displayed here (non-integral
display formatting is never exercised by the modelled payloads). -/
def numToDisplay (q : ℚ) : String :=
  if q.den = 1 then toString q.num else toString q

/-- `x.toFixed(1)` for a nonnegative rational (ECMAScript picks the larger
candidate on ties, i.e. rounds half up). -/
def toFixed1Pos (q : ℚ) : String :=
  let n : ℤ := jsRound (q * 10)
  toString (n / 10) ++ "." ++ toString (n % 10)

def toFixed1 (q : ℚ) : String :=
  if q < 0 then "-" ++ toFixed1Pos (-q) else toFixed1Pos q

/-- The first `updateStats` declaration (the one the spec describes): unwraps
`statsData.total_stats || statsData` and writes all four dashboard cells,
with quality `max(0, 100 - totalDefects / 2)` rounded, and the repair cost in
millions formatted by `toFixed(1)` with an `M KGS` suffix. -/
def updateStatsFromPayload (statsData : Json) (_dash : Dashboard) : Dashboard :=
  let stats := jsOr (getField statsData "total_stats") statsData
  let totalDefects : ℚ := jsNumOr0 (getField stats "total_defects")
  let criticalDefects : ℚ := jsNumOr0 (getField stats "critical_defects")
  let quality : ℚ := max 0 (100 - totalDefects / 2)
  let costMillion : String := toFixed1 (jsNumOr0 (getField stats "total_repair_cost") / 1000000)
  { totalDefects := some (numToDisplay totalDefects),
    criticalDefects := some (numToDisplay criticalDefects),
    roadQuality := some (toString (jsRound quality)),
    repairCost := some (costMillion ++ "M KGS") }

/-- The second `updateStats` declaration (photo-upload section): writes the
in-memory record count and the `d.severity >= 7` count, and touches neither
the quality nor the repair-cost cell. -/
def updateStatsFromRecords (defectsData : List DefectEntry) (dash : Dashboard) : Dashboard :=
  { dash with
    totalDefects := some (toString defectsData.length),
    criticalDefects :=
      some (toString (defectsData.filter (fun d => jsGE (entrySeverityTN d) 7)).length) }

/-- Both declarations are named `updateStats` in the same script scope, so by
JS function hoisting the second shadows the first: every call site invokes
the record-count version. -/
def updateStatsEffective : List DefectEntry → Dashboard → Dashboard :=
  updateStatsFromRecords

/-! ## Data loader -/

structure FetchResponse where
  ok : Bool
  status : Nat
  statusText : String
deriving DecidableEq, Repr

/-- The page state touched by `loadData`: the process-wide data collections,
the rendered views (each `none`/`false` until its render function runs), and
the list of alerts shown to the user. -/
structure PageState where
  defectsData : List DefectEntry
  worstRoadsData : Json
  statsData : Json
  dashboard : Dashboard
  chart : Option (List (String × Nat))
  roadsList : Option (List RoadItem)
  markers : Option (List Marker)
  heatmapLayerPoints : Option (List Json)
  legendAdded : Bool
  alerts : List String

def initialPageState : PageState :=
  { defectsData := [], worstRoadsData := .obj [], statsData := .obj [],
    dashboard := emptyDashboard, chart := none, roadsList := none,
    markers := none, heatmapLayerPoints := none, legendAdded := false, alerts := [] }

/-- The single catch site of `loadData` alerts
`'Ошибка загрузки данных: ' + error.message + ...`. -/
def alertText (errMessage : String) : String :=
  "Ошибка загрузки данных: " ++ errMessage ++ "\n\nПроверьте консоль браузера для деталей."

/-- `loadData`: four sequential fetches, each aborting the whole sequence via
`throw` when its response is not `ok`; all view derivation and attachment
(`updateStats` — the effective, shadowed declaration — chart, ranked list,
markers, heatmap, legend) runs only after the last fetch succeeds.  The
response bodies are passed alongside the response metadata; JSON bodies are
given already parsed (malformed-JSON exceptions are a separate error class
not exercised by the HTTP-failure claims). -/
def loadDataModel (st : PageState)
    (dResp : FetchResponse) (dBody : String)
    (wResp : FetchResponse) (wBody : Json)
    (sResp : FetchResponse) (sBody : Json)
    (hResp : FetchResponse) (hBody : Json) : PageState :=
  if !dResp.ok then
    { st with alerts := st.alerts ++
        [alertText ("Failed to load defects.csv: " ++ toString dResp.status ++ " " ++
          dResp.statusText)] }
  else
    let st1 := { st with defectsData := (parseCSV dBody).map DefectEntry.fromCsv }
    if !wResp.ok then
      { st1 with alerts := st1.alerts ++
          [alertText ("Failed to load worst_roads.json: " ++ toString wResp.status)] }
    else
      let st2 := { st1 with worstRoadsData := jsOr (getField wBody "worst_roads") wBody }
      if !sResp.ok then
        { st2 with alerts := st2.alerts ++
            [alertText ("Failed to load stats.json: " ++ toString sResp.status)] }
      else
        let st3 := { st2 with statsData := sBody }
        if !hResp.ok then
          { st3 with alerts := st3.alerts ++
              [alertText ("Failed to load heatmap.json: " ++ toString hResp.status)] }
        else
          let heatmapData := extractHeatmapData hBody
          { st3 with
            dashboard := updateStatsEffective st3.defectsData st3.dashboard,
            chart := some (defectCounts st3.defectsData),
            roadsList := some (createWorstRoadsList st3.worstRoadsData),
            markers := some (createMarkers st3.defectsData),
            heatmapLayerPoints := createHeatmapPoints heatmapData,
            legendAdded := true }

/-- The error message of the first failing fetch, as interpolated at the
corresponding `throw` site. -/
def loadErrorMessage (d w s h : FetchResponse) : String :=
  if !d.ok then "Failed to load defects.csv: " ++ toString d.status ++ " " ++ d.statusText
  else if !w.ok then "Failed to load worst_roads.json: " ++ toString w.status
  else if !s.ok then "Failed to load stats.json: " ++ toString s.status
  else if !h.ok then "Failed to load heatmap.json: " ++ toString h.status
  else ""

/-- The HTTP status of the first failing fetch. -/
def failStatus (d w s h : FetchResponse) : Nat :=
  if !d.ok then d.status
  else if !w.ok then w.status
  else if !s.ok then s.status
  else h.status

/-! ## View controller (display modes and base tiles) -/

inductive TileStyle where
  | streets
  | dark
  | satellite
deriving DecidableEq, Repr

/-- Which layers are attached to the map, whether the heat layer object has
been built (`heatmapLayer` non-null, set by a successful load), and the
`currentTileLayer` variable. -/
structure MapView where
  markersOn : Bool
  heatOn : Bool
  criticalOn : Bool
  heatBuilt : Bool
  streetsTileOn : Bool
  darkTileOn : Bool
  satelliteTileOn : Bool
  currentTile : TileStyle
deriving DecidableEq, Repr

/-- State after script start-up and a successful `loadData`: the markers
layer and streets tiles were attached at initialization, and `createHeatmap`
has built (not attached) the heat layer. -/
def initMapView : MapView :=
  { markersOn := true, heatOn := false, criticalOn := false, heatBuilt := true,
    streetsTileOn := true, darkTileOn := false, satelliteTileOn := false,
    currentTile := .streets }

inductive UiEvent where
  | clickMarkers
  | clickHeatmap
  | clickCritical
  | clickStreets
  | clickSatellite

def removeTile (s : MapView) : TileStyle → MapView
  | .streets => { s with streetsTileOn := false }
  | .dark => { s with darkTileOn := false }
  | .satellite => { s with satelliteTileOn := false }

/-- The five button click handlers.  Mode buttons attach their layer and
detach the other two (the heat layer only where `heatmapLayer` is non-null,
mirroring the `if (heatmapLayer)` guards); style buttons remove
`currentTileLayer` and attach the chosen tile layer.  `btnCritical` also
recomputes the critical layer contents (`showCriticalDefectsMarkers`),
which the layer-attachment state does not record. -/
def step (s : MapView) : UiEvent → MapView
  | .clickMarkers =>
    { s with markersOn := true,
             heatOn := if s.heatBuilt then false else s.heatOn,
             criticalOn := false }
  | .clickHeatmap =>
    { s with markersOn := false,
             heatOn := if s.heatBuilt then true else s.heatOn,
             criticalOn := false }
  | .clickCritical =>
    { s with markersOn := false,
             heatOn := if s.heatBuilt then false else s.heatOn,
             criticalOn := true }
  | .clickStreets =>
    let s1 := removeTile s s.currentTile
    { s1 with streetsTileOn := true, currentTile := .streets }
  | .clickSatellite =>
    let s1 := removeTile s s.currentTile
    { s1 with satelliteTileOn := true, currentTile := .satellite }

inductive Reachable : MapView → Prop where
  | start : Reachable initMapView
  | next (s : MapView) (e : UiEvent) : Reachable s → Reachable (step s e)

def modeCount (s : MapView) : Nat :=
  (if s.markersOn then 1 else 0) + (if s.heatOn then 1 else 0) +
    (if s.criticalOn then 1 else 0)

def tileCount (s : MapView) : Nat :=
  (if s.streetsTileOn then 1 else 0) + (if s.darkTileOn then 1 else 0) +
    (if s.satelliteTileOn then 1 else 0)

/-! ## Photo-upload simulation -/

structure DemoPhoto where
  name : String
  annotatedPath : String
  defectsCount : Nat
  classes : List String
deriving DecidableEq, Repr

def demoPhotoDiverse : DemoPhoto :=
  { name := "demo_diverse_defects.jpg",
    annotatedPath := "ml/data/demo_annotated/demo_diverse_defects.jpg",
    defectsCount := 5,
    classes := ["pothole", "transverse_crack", "alligator_crack"] }

def demoPhotoPotholes : DemoPhoto :=
  { name := "demo_many_potholes.jpg",
    annotatedPath := "ml/data/demo_annotated/demo_many_potholes.jpg",
    defectsCount := 17,
    classes := ["pothole"] }

def DEMO_PHOTOS : List DemoPhoto := [demoPhotoDiverse, demoPhotoPotholes]

/-- The object literal built by `confirmLocation`, with `rand` the
`Math.random()` draw in `[0, 1)`. -/
def newDefectOf (lat lng : ℚ) (photo : DemoPhoto) (rand : ℚ) : UploadedDefect :=
  { lat := lat, lon := lng,
    defect_type := photo.classes.head?,
    severity := 7.5 + rand * 2,
    confidence := 0.92,
    image_path := photo.annotatedPath,
    street_name := "Загруженное фото",
    district := "Новый дефект" }

/-- `confirmLocation`: pushes the synthesized record onto `defectsData` and
touches no other data collection.  (The statements after the push — marker
creation via `createDefectMarker`, which no source file defines, the map
pan, the trailing `updateStats()` call and the modal/state resets — write
none of the four data collections either way, so they are outside this
model.) -/
def confirmLocation (s : PageState) (lat lng : ℚ) (photo : DemoPhoto) (rand : ℚ) :
    PageState :=
  { s with defectsData := s.defectsData ++ [.uploaded (newDefectOf lat lng photo rand)] }

/-- The C1 scenario payload
`{"total_stats":{"total_defects":138,"critical_defects":20,"total_repair_cost":4500000}}`. -/
def statsPayload138 : Json :=
  Json.obj [("total_stats", Json.obj
    [("total_defects", Json.num 138), ("critical_defects", Json.num 20),
     ("total_repair_cost", Json.num 4500000)])]

/-- The inductive invariant of the view controller: exactly one mode layer
attached, heat layer built, and the attached tile layer is exactly
`currentTileLayer`, which is never the (button-less) dark style. -/
def MapInv (s : MapView) : Prop :=
  modeCount s = 1 ∧ s.heatBuilt = true
  ∧ s.streetsTileOn = decide (s.currentTile = TileStyle.streets)
  ∧ s.darkTileOn = false
  ∧ s.satelliteTileOn = decide (s.currentTile = TileStyle.satellite)
  ∧ s.currentTile ≠ TileStyle.dark

/-! ## Helper lemmas -/

theorem filterMap_guard {α β : Type} (bad : α → Bool) (f : α → β) (l : List α) :
    (l.filterMap fun a => if bad a then none else some (f a)) =
      (l.filter fun a => !bad a).map f := by
  induction l with
  | nil => rfl
  | cons a t ih =>
    by_cases h : bad a = true <;>
      simp [List.filterMap_cons, List.filter_cons, h, ih]

/-! ## Claim theorems -/

/-- Claim C3: in the CSV parser a comma read while a double quote is open is
field content, not a separator; the row with the quoted field
`"Main, St"` parses to a single field holding the comma. -/
theorem c3_quoted_comma_kept :
    (∀ (rest : List Char) (current : String) (values : List String),
        parseFields (',' :: rest) true current values =
          parseFields rest true (current.push ',') values)
    ∧ parseCSV "street,city\n\"Main, St\",Bishkek" =
        [[("street", "Main, St"), ("city", "Bishkek")]] :=
  ⟨fun _ _ _ => rfl, by decide⟩

/-- Claim C4: a doubled double quote inside a quoted CSV field is one escaped
literal quote; the row `"He said ""hi"""` parses to the single field
`He said "hi"` with one quote character per doubled pair. -/
theorem c4_escaped_quote_literal :
    (∀ (rest : List Char) (current : String) (values : List String),
        parseFields ('"' :: '"' :: rest) true current values =
          parseFields rest true (current.push '"') values)
    ∧ parseCSV "phrase\n\"He said \"\"hi\"\"\"" = [[("phrase", "He said \"hi\"")]] :=
  ⟨fun _ _ _ => rfl, by decide⟩

/-- Claim C6: the critical-defects subset computed by `showCriticalDefects`
contains exactly the records with `parseFloat(severity) >= 7`; severity
`7.0` is included and `6.999` excluded. -/
theorem c6_critical_threshold :
    (∀ (ds : List DefectEntry) (d : DefectEntry),
        d ∈ criticalFilter ds ↔ d ∈ ds ∧ jsGE (entrySeverityPF d) 7 = true)
    ∧ criticalFilter [DefectEntry.fromCsv [("severity", "7.0")]] =
        [DefectEntry.fromCsv [("severity", "7.0")]]
    ∧ criticalFilter [DefectEntry.fromCsv [("severity", "6.999")]] = [] := by
  refine ⟨fun ds d => List.mem_filter, ?_, ?_⟩
  · simp [criticalFilter, entrySeverityPF, parseFloatField, rowGet, jsParseFloat,
      parseDecimalPrefix, digitsToNat, jsGE]
  · simp [criticalFilter, entrySeverityPF, parseFloatField, rowGet, jsParseFloat,
      parseDecimalPrefix, digitsToNat, jsGE]
    norm_num

/-- Claim C7: all three accepted heatmap payload shapes — wrapped object,
bare array of tuples, array of named-field objects — normalize to the same
point list `[[1, 2, 3]]` before the heat layer is built. -/
theorem c7_heatmap_payload_shapes :
    createHeatmapPoints (extractHeatmapData (Json.obj [("heatmap_data",
        Json.arr [Json.arr [Json.num 1, Json.num 2, Json.num 3]])])) =
      some [Json.arr [Json.num 1, Json.num 2, Json.num 3]]
    ∧ createHeatmapPoints (extractHeatmapData
        (Json.arr [Json.arr [Json.num 1, Json.num 2, Json.num 3]])) =
      some [Json.arr [Json.num 1, Json.num 2, Json.num 3]]
    ∧ createHeatmapPoints (extractHeatmapData (Json.arr [Json.obj
        [("lat", Json.num 1), ("lon", Json.num 2), ("intensity", Json.num 3)]])) =
      some [Json.arr [Json.num 1, Json.num 2, Json.num 3]] :=
  ⟨rfl, rfl, rfl⟩

/-- Claim C1 (code bug): the declaration at lines 179–197 does put the C1
payload on the dashboard as `138` / `20` / quality `31` / `4.5M KGS`; but the
script declares a second function of the same name (lines 704–711), which by
JS hoisting shadows the first, so the runtime `updateStats()` writes the
in-memory record count instead and never writes the quality or repair-cost
cells. -/
theorem c1_dashboard_stats_shadowed :
    updateStatsFromPayload statsPayload138 emptyDashboard =
      { totalDefects := some "138", criticalDefects := some "20",
        roadQuality := some "31", repairCost := some "4.5M KGS" }
    ∧ updateStatsEffective = updateStatsFromRecords
    ∧ (updateStatsEffective [] emptyDashboard).totalDefects = some "0"
    ∧ (updateStatsEffective [] emptyDashboard).roadQuality = none
    ∧ (updateStatsEffective [] emptyDashboard).repairCost = none := by
  refine ⟨?_, rfl, rfl, rfl, rfl⟩
  have hq : jsRound (max 0 (100 - (138:ℚ) / 2)) = 31 := by
    rw [jsRound, Int.floor_eq_iff]
    norm_num
  have hc : jsRound ((4500000:ℚ) / 1000000 * 10) = 45 := by
    rw [jsRound, Int.floor_eq_iff]
    norm_num
  simp [updateStatsFromPayload, statsPayload138, getField, jsOr, jsTruthy, jsNumOr0,
    numToDisplay, toFixed1, toFixed1Pos, hq, hc,
    show ¬((4500000:ℚ)/1000000 < 0) by norm_num]
  decide

/-- Claim C5 counterexample: the record with `lat = "Infinity"` is included
in the marker layer (its marker is created, plotted at infinite latitude),
yet its latitude does not parse as a finite number — the code only excludes
`NaN`, so inclusion is not equivalent to both coordinates parsing finite. -/
theorem c5_infinity_counterexample :
    createMarkers [DefectEntry.fromCsv
        [("lat", "Infinity"), ("lon", "74.5"), ("severity", "8")]] =
      [{ lat := JFloat.inf false, lon := JFloat.fin (149 / 2),
         severity := JFloat.fin 8 }]
    ∧ (entryLat (DefectEntry.fromCsv
        [("lat", "Infinity"), ("lon", "74.5"), ("severity", "8")])).isFinite = false := by
  constructor
  · simp [createMarkers, markerOf, entryLat, entryLon, entrySeverityPF, parseFloatField,
      rowGet, jsParseFloat, parseDecimalPrefix, digitsToNat, jfOr0, JFloat.isNaN]
    norm_num
  · rfl

/-- Claim C5 (amended): a record is included in the marker layer and in the
critical layer exactly when neither parsed coordinate is `NaN` (so empty or
otherwise non-numeric coordinate strings are excluded, and no included
marker carries a `NaN` coordinate); a coordinate parsing to an infinity is
not excluded. -/
theorem c5_spatial_inclusion :
    (∀ ds : List DefectEntry,
        createMarkers ds =
          (ds.filter fun d => !((entryLat d).isNaN || (entryLon d).isNaN)).map markerOf)
    ∧ (∀ ds : List DefectEntry,
        showCriticalDefectsMarkers ds =
          ((criticalFilter ds).filter
            fun d => !((entryLat d).isNaN || (entryLon d).isNaN)).map criticalMarkerOf)
    ∧ (∀ (ds : List DefectEntry) (m : Marker),
        m ∈ createMarkers ds → m.lat.isNaN = false ∧ m.lon.isNaN = false)
    ∧ (∀ (ds : List DefectEntry) (m : Marker),
        m ∈ showCriticalDefectsMarkers ds → m.lat.isNaN = false ∧ m.lon.isNaN = false)
    ∧ createMarkers [DefectEntry.fromCsv
        [("lat", ""), ("lon", "74.5"), ("severity", "8")]] = [] := by
  have h1 : ∀ ds : List DefectEntry,
      createMarkers ds =
        (ds.filter fun d => !((entryLat d).isNaN || (entryLon d).isNaN)).map markerOf :=
    fun ds => filterMap_guard _ _ ds
  have h2 : ∀ ds : List DefectEntry,
      showCriticalDefectsMarkers ds =
        ((criticalFilter ds).filter
          fun d => !((entryLat d).isNaN || (entryLon d).isNaN)).map criticalMarkerOf :=
    fun ds => filterMap_guard _ _ (criticalFilter ds)
  refine ⟨h1, h2, ?_, ?_, rfl⟩
  · intro ds m hm
    rw [h1] at hm
    simp only [List.mem_map, List.mem_filter] at hm
    obtain ⟨d, ⟨_, hg⟩, hmk⟩ := hm
    simp only [Bool.not_eq_eq_eq_not, Bool.not_true, Bool.or_eq_false_iff] at hg
    subst hmk
    exact ⟨hg.1, hg.2⟩
  · intro ds m hm
    rw [h2] at hm
    simp only [List.mem_map, List.mem_filter] at hm
    obtain ⟨d, ⟨_, hg⟩, hmk⟩ := hm
    simp only [Bool.not_eq_eq_eq_not, Bool.not_true, Bool.or_eq_false_iff] at hg
    subst hmk
    exact ⟨hg.1, hg.2⟩

theorem c5_spatial_inclusion_witness :
    (markerOf (DefectEntry.fromCsv
        [("lat", "42"), ("lon", "74"), ("severity", "5")])).lat.isNaN = false
    ∧ (markerOf (DefectEntry.fromCsv
        [("lat", "42"), ("lon", "74"), ("severity", "5")])).lon.isNaN = false :=
  c5_spatial_inclusion.2.2.1
    [DefectEntry.fromCsv [("lat", "42"), ("lon", "74"), ("severity", "5")]]
    (markerOf (DefectEntry.fromCsv [("lat", "42"), ("lon", "74"), ("severity", "5")]))
    (List.mem_singleton_self _)

/-- Claim C9 counterexample: a road row with `defect_count` present and equal
to `0` and `total_defects` equal to `5` displays `5`, not the present
`defect_count` value `0` — `||` skips falsy values, so resolution is not
first-present-wins. -/
theorem c9_zero_count_counterexample :
    displayedDefectCount (Json.obj
        [("defect_count", Json.num 0), ("total_defects", Json.num 5)]) = Json.num 5
    ∧ Json.num (5 : ℚ) ≠ Json.num 0 := by
  constructor
  · simp [displayedDefectCount, getField, jsOr, jsTruthy]
  · intro h
    injection h with h2
    norm_num at h2

/-- Claim C9 (amended): the displayed defect count resolves first-present-
and-truthy-wins: a present nonzero `defect_count` is displayed; a missing or
zero `defect_count` falls back to a present nonzero `total_defects`; when
both are missing or zero, `0` is displayed. -/
theorem c9_count_resolution :
    (∀ (road : Json) (q : ℚ),
        getField road "defect_count" = some (Json.num q) → q ≠ 0 →
        displayedDefectCount road = Json.num q)
    ∧ (∀ (road : Json) (q : ℚ),
        (getField road "defect_count" = none ∨
          getField road "defect_count" = some (Json.num 0)) →
        getField road "total_defects" = some (Json.num q) → q ≠ 0 →
        displayedDefectCount road = Json.num q)
    ∧ (∀ road : Json,
        (getField road "defect_count" = none ∨
          getField road "defect_count" = some (Json.num 0)) →
        (getField road "total_defects" = none ∨
          getField road "total_defects" = some (Json.num 0)) →
        displayedDefectCount road = Json.num 0) := by
  refine ⟨?_, ?_, ?_⟩
  · intro road q h hq
    simp [displayedDefectCount, h, jsOr, jsTruthy, hq]
  · intro road q hdc h hq
    rcases hdc with hdc | hdc <;>
      simp [displayedDefectCount, hdc, h, jsOr, jsTruthy, hq]
  · intro road hdc htd
    rcases hdc with hdc | hdc <;> rcases htd with htd | htd <;>
      simp [displayedDefectCount, hdc, htd, jsOr, jsTruthy]

theorem c9_count_resolution_witness :
    displayedDefectCount (Json.obj [("defect_count", Json.num 7)]) = Json.num 7
    ∧ displayedDefectCount (Json.obj
        [("defect_count", Json.num 0), ("total_defects", Json.num 9)]) = Json.num 9 :=
  ⟨c9_count_resolution.1 _ 7 rfl (by norm_num),
   c9_count_resolution.2.1 _ 9 (Or.inr rfl) rfl (by norm_num)⟩

/-- Claim C10: confirming an upload appends exactly one synthesized record to
`defectsData` — severity `7.5 + 2·rand ∈ [7.5, 9.5)`, confidence `0.92`,
always satisfying the `severity >= 7` critical threshold — and leaves the
worst-roads, stats and heatmap collections unchanged. -/
theorem c10_upload_appends_one (s : PageState) (lat lng : ℚ) (photo : DemoPhoto)
    (rand : ℚ) (h0 : 0 ≤ rand) (h1 : rand < 1) :
    (confirmLocation s lat lng photo rand).defectsData =
        s.defectsData ++ [DefectEntry.uploaded (newDefectOf lat lng photo rand)]
    ∧ 7.5 ≤ (newDefectOf lat lng photo rand).severity
    ∧ (newDefectOf lat lng photo rand).severity < 9.5
    ∧ (newDefectOf lat lng photo rand).confidence = 0.92
    ∧ jsGE (entrySeverityTN (DefectEntry.uploaded (newDefectOf lat lng photo rand))) 7 = true
    ∧ (confirmLocation s lat lng photo rand).worstRoadsData = s.worstRoadsData
    ∧ (confirmLocation s lat lng photo rand).statsData = s.statsData
    ∧ (confirmLocation s lat lng photo rand).heatmapLayerPoints = s.heatmapLayerPoints := by
  refine ⟨rfl, ?_, ?_, rfl, ?_, rfl, rfl, rfl⟩
  · show (7.5 : ℚ) ≤ 7.5 + rand * 2
    linarith
  · show (7.5 : ℚ) + rand * 2 < 9.5
    linarith
  · simp only [entrySeverityTN, newDefectOf, jsGE, decide_eq_true_eq]
    linarith

theorem c10_upload_appends_one_witness :
    ((0 : ℚ) ≤ 0 ∧ (0 : ℚ) < 1)
    ∧ ((confirmLocation initialPageState 42 74 demoPhotoDiverse 0).defectsData =
          initialPageState.defectsData ++
            [DefectEntry.uploaded (newDefectOf 42 74 demoPhotoDiverse 0)]
        ∧ 7.5 ≤ (newDefectOf 42 74 demoPhotoDiverse 0).severity
        ∧ (newDefectOf 42 74 demoPhotoDiverse 0).severity < 9.5
        ∧ (newDefectOf 42 74 demoPhotoDiverse 0).confidence = 0.92
        ∧ jsGE (entrySeverityTN
            (DefectEntry.uploaded (newDefectOf 42 74 demoPhotoDiverse 0))) 7 = true
        ∧ (confirmLocation initialPageState 42 74 demoPhotoDiverse 0).worstRoadsData =
            initialPageState.worstRoadsData
        ∧ (confirmLocation initialPageState 42 74 demoPhotoDiverse 0).statsData =
            initialPageState.statsData
        ∧ (confirmLocation initialPageState 42 74 demoPhotoDiverse 0).heatmapLayerPoints =
            initialPageState.heatmapLayerPoints) :=
  ⟨⟨le_refl 0, by norm_num⟩,
   c10_upload_appends_one initialPageState 42 74 demoPhotoDiverse 0 (le_refl 0) (by norm_num)⟩

/-- Claim C2: when any of the four fetches resolves with a non-success
status, the loader aborts before any dependent view derivation runs — the
dashboard cells, chart, ranked list, markers, heatmap layer and legend are
all left untouched — and exactly one alert is appended, whose text embeds
the throw-site message with the failing fetch's HTTP status. -/
theorem c2_fetch_failure_aborts
    (st : PageState) (dResp : FetchResponse) (dBody : String)
    (wResp : FetchResponse) (wBody : Json) (sResp : FetchResponse) (sBody : Json)
    (hResp : FetchResponse) (hBody : Json)
    (hfail : dResp.ok = false ∨ wResp.ok = false ∨ sResp.ok = false ∨ hResp.ok = false) :
    (loadDataModel st dResp dBody wResp wBody sResp sBody hResp hBody).dashboard = st.dashboard
    ∧ (loadDataModel st dResp dBody wResp wBody sResp sBody hResp hBody).chart = st.chart
    ∧ (loadDataModel st dResp dBody wResp wBody sResp sBody hResp hBody).roadsList = st.roadsList
    ∧ (loadDataModel st dResp dBody wResp wBody sResp sBody hResp hBody).markers = st.markers
    ∧ (loadDataModel st dResp dBody wResp wBody sResp sBody hResp hBody).heatmapLayerPoints =
        st.heatmapLayerPoints
    ∧ (loadDataModel st dResp dBody wResp wBody sResp sBody hResp hBody).legendAdded =
        st.legendAdded
    ∧ (loadDataModel st dResp dBody wResp wBody sResp sBody hResp hBody).alerts =
        st.alerts ++ [alertText (loadErrorMessage dResp wResp sResp hResp)]
    ∧ ∃ pre post, alertText (loadErrorMessage dResp wResp sResp hResp) =
        pre ++ toString (failStatus dResp wResp sResp hResp) ++ post := by
  cases hd : dResp.ok with
  | false =>
    refine ⟨?_, ?_, ?_, ?_, ?_, ?_, ?_,
      "Ошибка загрузки данных: " ++ "Failed to load defects.csv: ",
      " " ++ dResp.statusText ++ "\n\nПроверьте консоль браузера для деталей.", ?_⟩ <;>
      simp [loadDataModel, loadErrorMessage, failStatus, alertText, hd, String.append_assoc]
    rw [← String.append_assoc]
    rfl
  | true =>
    cases hw : wResp.ok with
    | false =>
      refine ⟨?_, ?_, ?_, ?_, ?_, ?_, ?_,
        "Ошибка загрузки данных: " ++ "Failed to load worst_roads.json: ",
        "\n\nПроверьте консоль браузера для деталей.", ?_⟩ <;>
        simp [loadDataModel, loadErrorMessage, failStatus, alertText, hd, hw,
          String.append_assoc]
      rw [← String.append_assoc]
      rfl
    | true =>
      cases hs : sResp.ok with
      | false =>
        refine ⟨?_, ?_, ?_, ?_, ?_, ?_, ?_,
          "Ошибка загрузки данных: " ++ "Failed to load stats.json: ",
          "\n\nПроверьте консоль браузера для деталей.", ?_⟩ <;>
          simp [loadDataModel, loadErrorMessage, failStatus, alertText, hd, hw, hs,
            String.append_assoc]
        rw [← String.append_assoc]
        rfl
      | true =>
        cases hh : hResp.ok with
        | false =>
          refine ⟨?_, ?_, ?_, ?_, ?_, ?_, ?_,
            "Ошибка загрузки данных: " ++ "Failed to load heatmap.json: ",
            "\n\nПроверьте консоль браузера для деталей.", ?_⟩ <;>
            simp [loadDataModel, loadErrorMessage, failStatus, alertText, hd, hw, hs, hh,
              String.append_assoc]
          rw [← String.append_assoc]
          rfl
        | true =>
          rcases hfail with h | h | h | h <;> simp_all

theorem c2_fetch_failure_witness :
    ((FetchResponse.mk false 500 "Internal Server Error").ok = false
      ∨ (FetchResponse.mk true 200 "OK").ok = false
      ∨ (FetchResponse.mk true 200 "OK").ok = false
      ∨ (FetchResponse.mk true 200 "OK").ok = false)
    ∧ ((loadDataModel initialPageState (FetchResponse.mk true 200 "OK") ""
          (FetchResponse.mk false 500 "Internal Server Error") Json.null
          (FetchResponse.mk true 200 "OK") Json.null
          (FetchResponse.mk true 200 "OK") Json.null).chart = initialPageState.chart
      ∧ (loadDataModel initialPageState (FetchResponse.mk true 200 "OK") ""
          (FetchResponse.mk false 500 "Internal Server Error") Json.null
          (FetchResponse.mk true 200 "OK") Json.null
          (FetchResponse.mk true 200 "OK") Json.null).alerts =
        initialPageState.alerts ++
          [alertText (loadErrorMessage (FetchResponse.mk true 200 "OK")
            (FetchResponse.mk false 500 "Internal Server Error")
            (FetchResponse.mk true 200 "OK") (FetchResponse.mk true 200 "OK"))]) := by
  have h := c2_fetch_failure_aborts initialPageState (FetchResponse.mk true 200 "OK") ""
    (FetchResponse.mk false 500 "Internal Server Error") Json.null
    (FetchResponse.mk true 200 "OK") Json.null
    (FetchResponse.mk true 200 "OK") Json.null (Or.inr (Or.inl rfl))
  exact ⟨Or.inl rfl, h.2.1, h.2.2.2.2.2.2.1⟩

theorem mapInv_init : MapInv initMapView := by
  refine ⟨rfl, rfl, rfl, rfl, rfl, ?_⟩
  intro h
  exact TileStyle.noConfusion h

theorem mapInv_step (s : MapView) (e : UiEvent) (h : MapInv s) : MapInv (step s e) := by
  obtain ⟨hm, hb, hs, hd, hsat, hnd⟩ := h
  cases e with
  | clickMarkers => simp_all [step, MapInv, modeCount]
  | clickHeatmap => simp_all [step, MapInv, modeCount]
  | clickCritical => simp_all [step, MapInv, modeCount]
  | clickStreets =>
    cases hct : s.currentTile with
    | streets => simp_all [step, removeTile, MapInv, modeCount]
    | dark => exact absurd hct hnd
    | satellite => simp_all [step, removeTile, MapInv, modeCount]
  | clickSatellite =>
    cases hct : s.currentTile with
    | streets => simp_all [step, removeTile, MapInv, modeCount]
    | dark => exact absurd hct hnd
    | satellite => simp_all [step, removeTile, MapInv, modeCount]

theorem reachable_mapInv (s : MapView) (h : Reachable s) : MapInv s := by
  induction h with
  | start => exact mapInv_init
  | next s e _ ih => exact mapInv_step s e ih

/-- Claim C8: after initialization exactly one display-mode layer and exactly
one base tile style are attached (the dark style, which has no button, never
is); the initial state is markers + streets; and each mode button attaches
its layer and detaches the other two. -/
theorem c8_exclusive_modes_and_tiles :
    (∀ s : MapView, Reachable s → modeCount s = 1 ∧ tileCount s = 1 ∧ s.darkTileOn = false)
    ∧ (initMapView.markersOn = true ∧ initMapView.currentTile = TileStyle.streets
        ∧ initMapView.streetsTileOn = true)
    ∧ (∀ s : MapView, Reachable s →
        ((step s UiEvent.clickMarkers).markersOn = true
          ∧ (step s UiEvent.clickMarkers).heatOn = false
          ∧ (step s UiEvent.clickMarkers).criticalOn = false)
        ∧ ((step s UiEvent.clickHeatmap).heatOn = true
          ∧ (step s UiEvent.clickHeatmap).markersOn = false
          ∧ (step s UiEvent.clickHeatmap).criticalOn = false)
        ∧ ((step s UiEvent.clickCritical).criticalOn = true
          ∧ (step s UiEvent.clickCritical).markersOn = false
          ∧ (step s UiEvent.clickCritical).heatOn = false)) := by
  refine ⟨?_, ⟨rfl, rfl, rfl⟩, ?_⟩
  · intro s h
    obtain ⟨hm, hb, hs, hd, hsat, hnd⟩ := reachable_mapInv s h
    refine ⟨hm, ?_, hd⟩
    cases hct : s.currentTile with
    | streets => simp_all [tileCount]
    | dark => exact absurd hct hnd
    | satellite => simp_all [tileCount]
  · intro s h
    obtain ⟨hm, hb, hs, hd, hsat, hnd⟩ := reachable_mapInv s h
    refine ⟨⟨rfl, ?_, rfl⟩, ⟨?_, rfl, rfl⟩, ⟨rfl, rfl, ?_⟩⟩ <;>
      simp [step, hb]

theorem c8_exclusive_modes_witness :
    modeCount initMapView = 1 ∧ tileCount initMapView = 1
      ∧ initMapView.darkTileOn = false :=
  c8_exclusive_modes_and_tiles.1 initMapView Reachable.start

end RoadDoctor
